import Mathlib

/-!
Shallow embedding of `src/models/tacotron2.py` (the `Tacotron2` orchestration
module of the TTS repository).

Tensors are modelled as nested lists of rationals; a 3-D tensor of shape
(b, d1, d2) is a list of b matrices.  Python exceptions are modelled with
`Except PyError`; mutation of `self` (the cached `speaker_embeddings` field)
is modelled by returning the updated model state alongside the result, which
also captures that attribute mutations performed before an exception persist.
The external collaborators imported from `TTS.layers.tacotron2` /
`TTS.utils.generic_utils` (Encoder, Decoder, Postnet) are modelled as
uninterpreted functions of their parameter data, collected in `Libs`; the
randomness of the in-place initialisers (`uniform_`, `normal_`) is made
explicit by passing the sampled matrices to the constructor.
-/

namespace TTS

abbrev Row := List ℚ
abbrev Mat := List (List ℚ)
abbrev Tensor3 := List (List (List ℚ))
abbrev BoolMask := List (List Bool)
abbrev Tokens := List (List Nat)

/-- Python exceptions that the modelled call paths can surface, plus the
spec taxonomy's `ConfigurationError` so that spec-level statements about
error classes are expressible. -/
inductive PyError where
  | runtimeError (msg : String)
  | nameError (name : String)
  | attributeError (attr : String)
  | indexError (msg : String)
  | shapeError (msg : String)
  | configurationError (msg : String)
deriving DecidableEq

/-- Python `.transpose(1, 2)` on a (b, d1, d2) tensor: transpose each batch matrix. -/
def transpose12 (t : Tensor3) : Tensor3 := t.map List.transpose

/-- Model of `torch.flip(t, dims=(1,))`: reverse along dimension 1. -/
def flip1 (t : Tensor3) : Tensor3 := t.map List.reverse

/-- Elementwise `+` of two same-shaped 3-D tensors. -/
def addT (a b : Tensor3) : Tensor3 :=
  List.zipWith (List.zipWith (List.zipWith (· + ·))) a b

/-- One row of an `nn.Embedding` weight matrix. -/
def embeddingLookup (w : Mat) (id : Nat) : Row := w.getD id []

/-- Model of `nn.Embedding` applied to a (b, t) integer tensor: row lookup per id,
raising `IndexError` when an id is out of range of the weight table. -/
def embedTokens (w : Mat) (chars : Tokens) : Except PyError Tensor3 :=
  if chars.any (fun row => row.any (fun id => decide (w.length ≤ id))) then
    Except.error (PyError.indexError "index out of range in self")
  else
    Except.ok (chars.map (fun row => row.map (embeddingLookup w)))

/-- Modelled from the spec: `sequence_mask` (in `TTS.utils.generic_utils`,
not under src/) together with the decoder-side use of the mask.  Per the
spec, the validity mask has exactly `lengths[i]` true entries in row `i`
and the call fails with `ShapeError` when `token_lengths` contains a value
exceeding the token tensor's time dimension. -/
def sequence_mask (lengths : List Nat) (timeIn : Nat) : Except PyError BoolMask :=
  if lengths.any (fun l => decide (timeIn < l)) then
    Except.error (PyError.shapeError "token_lengths exceeds token time dimension")
  else
    Except.ok (lengths.map (fun l => (List.range timeIn).map (fun t => decide (t < l))))

/-- Opaque parameter data of a `Decoder` module (architecture + weights). -/
abbrev DecParams := List ℚ

/-- Opaque parameter data of the `Postnet` module. -/
abbrev PostParams := List ℚ

/-- The external collaborators (`Encoder`, `Decoder`, `Postnet` from
`TTS.layers.tacotron2`): uninterpreted functions of their parameter data
and tensor inputs.  All claim theorems quantify over these. -/
structure Libs where
  encoderForward : Tensor3 → List Nat → Tensor3
  encoderInference : Tensor3 → Tensor3
  encoderInferenceTruncated : Tensor3 → Tensor3
  decoderRun : DecParams → Tensor3 → Tensor3 → BoolMask → Tensor3 × Tensor3 × Tensor3
  decoderInference : DecParams → Tensor3 → Tensor3 × Tensor3 × Tensor3
  postnetRun : PostParams → Tensor3 → Tensor3

/-- State of a constructed `Tacotron2` module.  `embedding` is the token
embedding weight; `speaker_embedding` is the weight of the optional speaker
embedding layer (`none` models the attribute being absent, the
`hasattr` probe); `speaker_embeddings` is the per-call cached speaker
vector state; `decoder` and `decoder_backward` hold the parameter data of
the forward decoder and of its deep copy. -/
structure Tacotron2 where
  num_speakers : Nat
  n_frames_per_step : Nat
  bidirectional_decoder : Bool
  embedding : Mat
  speaker_embedding : Option Mat
  speaker_embeddings : Option Tensor3
  decoder : DecParams
  decoder_backward : Option DecParams
  postnet : PostParams
deriving DecidableEq

/-- Model of `Tacotron2.__init__`.  `embedding_init` is the sample written by
`self.embedding.weight.data.uniform_(-val, val)` over the whole table
(after `nn.Embedding(num_chars, 512, padding_idx=0)` zero-initialised row
0, the in-place `uniform_` overwrites every row); `speaker_init` is the
`normal_(0, 0.3)` sample used when no pretrained speaker weights are given
(Python truthiness: `None` and an empty list both fall back to the fresh
layer). -/
def mkTacotron2 (num_speakers : Nat) (r : Nat)
    (speaker_embedding_weights : Option Mat) (bidirectional_decoder : Bool)
    (embedding_init : Mat) (speaker_init : Mat)
    (decoder_init : DecParams) (postnet_init : PostParams) : Tacotron2 :=
  { num_speakers := num_speakers
    n_frames_per_step := r
    bidirectional_decoder := bidirectional_decoder
    embedding := embedding_init
    speaker_embedding :=
      if 1 < num_speakers then
        some (match speaker_embedding_weights with
              | some w => if w.isEmpty then speaker_init else w
              | none => speaker_init)
      else none
    speaker_embeddings := none
    decoder := decoder_init
    decoder_backward := if bidirectional_decoder then some decoder_init else none
    postnet := postnet_init }

/-- Validity of the `uniform_(-val, val)` sample for the token embedding
table, where `val = sqrt(3) * sqrt(2 / (num_chars + 512))`, expressed via
squares to stay in ℚ: a `num_chars × 512` matrix whose entries `x` satisfy
`x^2 ≤ 6 / (num_chars + 512)`. -/
def uniformInitValid (num_chars : Nat) (w : Mat) : Prop :=
  w.length = num_chars ∧
    ∀ row ∈ w, row.length = 512 ∧
      ∀ x ∈ row, x ^ 2 ≤ (6 : ℚ) / (num_chars + 512)

instance (num_chars : Nat) (w : Mat) : Decidable (uniformInitValid num_chars w) := by
  unfold uniformInitValid; infer_instance

/-- Model of `Tacotron2._init_states`. -/
def init_states (m : Tacotron2) : Tacotron2 :=
  { m with speaker_embeddings := none }

/-- Model of `Tacotron2._compute_speaker_embedding`: `self.speaker_embedding(speaker_ids)`
followed by `.unsqueeze_(1)`, giving a (b, 1, e) tensor; out-of-range ids
raise `IndexError`. -/
def compute_speaker_vectors (w : Mat) (ids : List Nat) : Except PyError Tensor3 :=
  if ids.any (fun i => decide (w.length ≤ i)) then
    Except.error (PyError.indexError "index out of range in self")
  else
    Except.ok (ids.map (fun i => [embeddingLookup w i]))

/-- The message of the `RuntimeError` raised by
`Tacotron2.compute_speaker_embedding`. -/
def speakerErrMsg : String :=
  " [!] Model has speaker embedding layer but speaker_id is not provided"

/-- Model of `Tacotron2.compute_speaker_embedding`: raises when the model has a
speaker embedding layer but no ids were supplied; otherwise, when both are
present, computes and caches the speaker vectors on `self`. -/
def compute_speaker_embedding (m : Tacotron2) (speaker_ids : Option (List Nat)) :
    Tacotron2 × Except PyError Unit :=
  match m.speaker_embedding, speaker_ids with
  | some _, none => (m, Except.error (PyError.runtimeError speakerErrMsg))
  | some w, some ids =>
      match compute_speaker_vectors w ids with
      | Except.error e => (m, Except.error e)
      | Except.ok v => ({ m with speaker_embeddings := some v }, Except.ok ())
  | none, _ => (m, Except.ok ())

/-- Model of `Tacotron2._concat_speaker_embedding`: broadcast the (b, 1, e) speaker
tensor over dimension 1 and concatenate along the last (feature)
dimension. -/
def concat_speaker_embedding (outputs speaker_embeddings : Tensor3) : Tensor3 :=
  List.zipWith (fun o s => o.map (fun row => row ++ s.headD [])) outputs speaker_embeddings

/-- Model of `Tacotron2._add_speaker_embedding`: broadcast the (b, 1, e) speaker
tensor over dimension 1 and add it elementwise. -/
def add_speaker_embedding (outputs speaker_embeddings : Tensor3) : Tensor3 :=
  List.zipWith (fun o s => o.map (fun row => List.zipWith (· + ·) row (s.headD []))) outputs speaker_embeddings

/-- Modelled from the spec: the fusion policy described as concatenating
the broadcast speaker vector along the feature dimension at every time
position of the encoder output. -/
def specConcatFusion (encoderOut speakerVecs : Tensor3) : Tensor3 :=
  encoderOut.zipWith
    (fun sample spkSample => sample.map (fun timePos => timePos ++ spkSample.headD []))
    speakerVecs

/-- The `if self.num_speakers > 1:` fusion step shared by `forward`,
`inference` and `inference_truncated`; reading a `None` cache (ill-formed
state) fails like Python's attribute lookup on `None.expand` would. -/
def fuseSpeaker (m : Tacotron2) (encoder_outputs : Tensor3) : Except PyError Tensor3 :=
  if 1 < m.num_speakers then
    match m.speaker_embeddings with
    | none => Except.error (PyError.attributeError "expand")
    | some s => Except.ok (concat_speaker_embedding encoder_outputs s)
  else Except.ok encoder_outputs

/-- Model of `Tacotron2.shape_outputs`: transpose the two mel tensors into the
caller-facing layout and pass the alignments through. -/
def shape_outputs (mel_outputs mel_outputs_postnet alignments : Tensor3) :
    Tensor3 × Tensor3 × Tensor3 :=
  (transpose12 mel_outputs, transpose12 mel_outputs_postnet, alignments)

/-- Model of `Tacotron2._backward_inference`: run the backward decoder on the
time-reversed target with the same encoder outputs and mask, then
transpose its mel output. -/
def backward_inference (L : Libs) (m : Tacotron2) (mel_specs encoder_outputs : Tensor3)
    (mask : BoolMask) : Except PyError (Tensor3 × Tensor3) :=
  match m.decoder_backward with
  | none => Except.error (PyError.attributeError "decoder_backward")
  | some p =>
      let res := L.decoderRun p encoder_outputs (flip1 mel_specs) mask
      Except.ok (transpose12 res.1, res.2.1)

/-- The four forward-path outputs of a call. -/
structure FwdCore where
  mel : Tensor3
  melPost : Tensor3
  alignments : Tensor3
  stop_tokens : Tensor3
deriving DecidableEq

/-- Result of `Tacotron2.forward`: the four forward outputs, plus the
backward pair when the bidirectional path ran (the six-tuple case). -/
structure FwdOut where
  core : FwdCore
  backward : Option (Tensor3 × Tensor3)
deriving DecidableEq

/-- The part of `Tacotron2.forward` after the mask, the token embedding
and the speaker-embedding computation: encoder, optional speaker fusion,
decoder, residual postnet, output shaping, optional backward decoder. -/
def forwardAfterSpeaker (L : Libs) (m1 : Tacotron2) (embedded_inputs : Tensor3)
    (text_lengths : List Nat) (mel_specs : Tensor3) (mask : BoolMask) :
    Except PyError FwdOut :=
  let encoder_outputs := L.encoderForward embedded_inputs text_lengths
  match fuseSpeaker m1 encoder_outputs with
  | Except.error e => Except.error e
  | Except.ok enc =>
      let dres := L.decoderRun m1.decoder enc mel_specs mask
      let postnet_outputs := addT dres.1 (L.postnetRun m1.postnet dres.1)
      let so := shape_outputs dres.1 postnet_outputs dres.2.1
      let core : FwdCore := ⟨so.1, so.2.1, so.2.2, dres.2.2⟩
      if m1.bidirectional_decoder then
        match backward_inference L m1 mel_specs enc mask with
        | Except.error e => Except.error e
        | Except.ok ba => Except.ok ⟨core, some ba⟩
      else Except.ok ⟨core, none⟩

/-- Model of `Tacotron2.forward` (the training entry point): reset the cached
speaker state, build the validity mask, embed the tokens, compute and
cache the speaker embedding, then run the pipeline.  The updated model
state is returned alongside the result. -/
def forward (L : Libs) (m0 : Tacotron2) (characters : Tokens) (text_lengths : List Nat)
    (mel_specs : Tensor3) (speaker_ids : Option (List Nat)) :
    Tacotron2 × Except PyError FwdOut :=
  let m := init_states m0
  match sequence_mask text_lengths (characters.headD []).length with
  | Except.error e => (m, Except.error e)
  | Except.ok mask =>
      match embedTokens m.embedding characters with
      | Except.error e => (m, Except.error e)
      | Except.ok emb0 =>
          match compute_speaker_embedding m speaker_ids with
          | (m1, Except.error e) => (m1, Except.error e)
          | (m1, Except.ok _) =>
              (m1, forwardAfterSpeaker L m1 (transpose12 emb0) text_lengths mel_specs mask)

/-- Model of `Tacotron2.inference`: token embedding first, then state reset and
speaker computation, then encoder inference, fusion, decoder inference,
residual postnet and output shaping. -/
def inference (L : Libs) (m0 : Tacotron2) (characters : Tokens)
    (speaker_ids : Option (List Nat)) : Tacotron2 × Except PyError FwdCore :=
  match embedTokens m0.embedding characters with
  | Except.error e => (m0, Except.error e)
  | Except.ok emb0 =>
      let m := init_states m0
      match compute_speaker_embedding m speaker_ids with
      | (m1, Except.error e) => (m1, Except.error e)
      | (m1, Except.ok _) =>
          let encoder_outputs := L.encoderInference (transpose12 emb0)
          match fuseSpeaker m1 encoder_outputs with
          | Except.error e => (m1, Except.error e)
          | Except.ok enc =>
              let dres := L.decoderInference m1.decoder enc
              let postnet_outputs := addT dres.1 (L.postnetRun m1.postnet dres.1)
              let so := shape_outputs dres.1 postnet_outputs dres.2.1
              (m1, Except.ok ⟨so.1, so.2.1, so.2.2, dres.2.2⟩)

/-- Model of `Tacotron2.inference_truncated`: no state reset; speaker computation
first, then token embedding, truncated encoder inference and fusion.  The
decoder invocation `self.decoder.inference_truncated(encoder_output)`
reads the local name `encoder_output`, which is never defined on this path
(the defined local is `encoder_outputs`), so reaching it raises
`NameError` and nothing after it executes. -/
def inference_truncated (L : Libs) (m0 : Tacotron2) (text : Tokens)
    (speaker_ids : Option (List Nat)) : Tacotron2 × Except PyError FwdCore :=
  match compute_speaker_embedding m0 speaker_ids with
  | (m1, Except.error e) => (m1, Except.error e)
  | (m1, Except.ok _) =>
      match embedTokens m1.embedding text with
      | Except.error e => (m1, Except.error e)
      | Except.ok emb0 =>
          let encoder_outputs := L.encoderInferenceTruncated (transpose12 emb0)
          match fuseSpeaker m1 encoder_outputs with
          | Except.error e => (m1, Except.error e)
          | Except.ok _ => (m1, Except.error (PyError.nameError "encoder_output"))

/-! Concrete collaborator functions and model instances, used to witness
the conditional theorems on explicit inputs. -/

/-- A concrete `Libs` instance with simple total collaborator functions. -/
def L0 : Libs :=
  { encoderForward := fun x _ => x
    encoderInference := fun x => x
    encoderInferenceTruncated := fun x => x
    decoderRun := fun _ e m _ => (m, e, e)
    decoderInference := fun _ e => (e, e, e)
    postnetRun := fun _ x => x }

/-- A concrete single-speaker model (`num_speakers = 1`). -/
def mSingle : Tacotron2 :=
  mkTacotron2 1 1 none false [[0], [1]] [[2], [3]] [0] [0]

/-- A concrete multi-speaker model (`num_speakers = 2`). -/
def mMulti : Tacotron2 :=
  mkTacotron2 2 1 none false [[0], [1]] [[2], [3]] [0] [0]

/-- A concrete single-speaker model with the bidirectional decoder enabled. -/
def mBidi : Tacotron2 :=
  mkTacotron2 1 1 none true [[0], [1]] [[2], [3]] [5] [0]

/-- Claim C10 (confirmed): `shape_outputs` only transposes the two mel
tensors (swapping their last two axes) and returns the alignments
component completely unchanged. -/
theorem shape_outputs_only_transposes_mels (mel post align : Tensor3) :
    shape_outputs mel post align = (transpose12 mel, transpose12 post, align) := rfl

/-- Claim C4 (confirmed, mask check modelled from the spec): if
`token_lengths` contains a value exceeding the token tensor's time
dimension, `forward` fails with `ShapeError` and produces no output. -/
theorem forward_bad_lengths_shape_error (L : Libs) (m : Tacotron2) (characters : Tokens)
    (text_lengths : List Nat) (mel_specs : Tensor3) (speaker_ids : Option (List Nat))
    (h : text_lengths.any (fun l => decide ((characters.headD []).length < l)) = true) :
    (forward L m characters text_lengths mel_specs speaker_ids).2 =
      Except.error (PyError.shapeError "token_lengths exceeds token time dimension") := by
  unfold forward sequence_mask
  rw [if_pos h]

theorem forward_bad_lengths_shape_error_witness :
    (([5] : List Nat).any (fun l => decide ((([[1]] : Tokens).headD []).length < l)) = true) ∧
      (forward L0 mSingle [[1]] [5] [[[1]]] none).2 =
        Except.error (PyError.shapeError "token_lengths exceeds token time dimension") :=
  ⟨by decide, forward_bad_lengths_shape_error L0 mSingle [[1]] [5] [[[1]]] none (by decide)⟩

/-- Claim C2 (confirmed): `inference_truncated` reaches the reference to
the never-defined local `encoder_output`, so whenever the stages before
the decoder invocation succeed it fails there with `NameError`; and there
exists no input on which it completes and returns the four-tuple — every
call returns an error. -/
theorem inference_truncated_never_succeeds :
    (∀ (L : Libs) (m : Tacotron2) (text : Tokens) (speaker_ids : Option (List Nat)),
      ∃ e, (inference_truncated L m text speaker_ids).2 = Except.error e) ∧
    (∀ (L : Libs) (m : Tacotron2) (text : Tokens) (speaker_ids : Option (List Nat))
        (m1 : Tacotron2) (emb0 enc : Tensor3),
      compute_speaker_embedding m speaker_ids = (m1, Except.ok ()) →
      embedTokens m1.embedding text = Except.ok emb0 →
      fuseSpeaker m1 (L.encoderInferenceTruncated (transpose12 emb0)) = Except.ok enc →
      (inference_truncated L m text speaker_ids).2 =
        Except.error (PyError.nameError "encoder_output")) := by
  constructor
  · intro L m text speaker_ids
    unfold inference_truncated
    rcases h : compute_speaker_embedding m speaker_ids with ⟨m1, r⟩
    cases r with
    | error e => exact ⟨e, rfl⟩
    | ok u =>
        cases h2 : embedTokens m1.embedding text with
        | error e => exact ⟨e, by simp [h2]⟩
        | ok emb0 =>
            cases h3 : fuseSpeaker m1 (L.encoderInferenceTruncated (transpose12 emb0)) with
            | error e => exact ⟨e, by simp [h2, h3]⟩
            | ok enc => exact ⟨PyError.nameError "encoder_output", by simp [h2, h3]⟩
  · intro L m text speaker_ids m1 emb0 enc h1 h2 h3
    unfold inference_truncated
    rw [h1]
    simp [h2, h3]

theorem inference_truncated_never_succeeds_witness :
    (inference_truncated L0 mSingle [[1]] none).2 =
      Except.error (PyError.nameError "encoder_output") :=
  inference_truncated_never_succeeds.2 L0 mSingle [[1]] none mSingle
    [[[1]]] [[[1]]] rfl rfl rfl

/-- Lemma: `compute_speaker_embedding` only ever writes the `speaker_embeddings`
cache: every other field of the returned state equals the input state's. -/
theorem compute_speaker_embedding_preserves (m : Tacotron2) (ids : Option (List Nat))
    (m1 : Tacotron2) (r : Except PyError Unit)
    (h : compute_speaker_embedding m ids = (m1, r)) :
    m1.num_speakers = m.num_speakers ∧ m1.bidirectional_decoder = m.bidirectional_decoder ∧
      m1.embedding = m.embedding ∧ m1.speaker_embedding = m.speaker_embedding ∧
      m1.decoder = m.decoder ∧ m1.decoder_backward = m.decoder_backward ∧
      m1.postnet = m.postnet := by
  unfold compute_speaker_embedding at h
  split at h <;> try split at h
  all_goals
    injection h with h1 h2
  all_goals
    subst h1
  all_goals
    exact ⟨rfl, rfl, rfl, rfl, rfl, rfl, rfl⟩

/-- Inversion of a successful `forwardAfterSpeaker` run: the fusion
succeeded, the four forward outputs come from one decoder run followed by
the residual postnet and the output shaping, and the backward pair is
present exactly when the bidirectional flag is set. -/
theorem forwardAfterSpeaker_ok (L : Libs) (m1 : Tacotron2) (emb : Tensor3)
    (lens : List Nat) (mels : Tensor3) (mask : BoolMask) (out : FwdOut)
    (h : forwardAfterSpeaker L m1 emb lens mels mask = Except.ok out) :
    ∃ enc, fuseSpeaker m1 (L.encoderForward emb lens) = Except.ok enc ∧
      out.core = ⟨transpose12 (L.decoderRun m1.decoder enc mels mask).1,
                  transpose12 (addT (L.decoderRun m1.decoder enc mels mask).1
                    (L.postnetRun m1.postnet (L.decoderRun m1.decoder enc mels mask).1)),
                  (L.decoderRun m1.decoder enc mels mask).2.1,
                  (L.decoderRun m1.decoder enc mels mask).2.2⟩ ∧
      ((m1.bidirectional_decoder = true ∧
          ∃ p, m1.decoder_backward = some p ∧
            out.backward = some (transpose12 (L.decoderRun p enc (flip1 mels) mask).1,
                                 (L.decoderRun p enc (flip1 mels) mask).2.1)) ∨
        (m1.bidirectional_decoder = false ∧ out.backward = none)) := by
  unfold forwardAfterSpeaker at h
  dsimp only at h
  cases hf : fuseSpeaker m1 (L.encoderForward emb lens) with
  | error e => rw [hf] at h; cases h
  | ok enc =>
    rw [hf] at h
    refine ⟨enc, rfl, ?_⟩
    cases hb : m1.bidirectional_decoder with
    | false =>
        rw [hb] at h
        simp only [Bool.false_eq_true, if_false] at h
        injection h with h1
        subst h1
        exact ⟨rfl, Or.inr ⟨rfl, rfl⟩⟩
    | true =>
        rw [hb] at h
        simp only [if_true] at h
        unfold backward_inference at h
        cases hp : m1.decoder_backward with
        | none => rw [hp] at h; cases h
        | some p =>
            rw [hp] at h
            injection h with h1
            subst h1
            exact ⟨rfl, Or.inl ⟨rfl, p, rfl, rfl⟩⟩

/-- Inversion of a successful `forward` run into its pipeline stages. -/
theorem forward_ok_inv (L : Libs) (m m2 : Tacotron2) (chars : Tokens) (lens : List Nat)
    (mels : Tensor3) (ids : Option (List Nat)) (out : FwdOut)
    (h : forward L m chars lens mels ids = (m2, Except.ok out)) :
    ∃ mask emb0, sequence_mask lens (chars.headD []).length = Except.ok mask ∧
      embedTokens m.embedding chars = Except.ok emb0 ∧
      compute_speaker_embedding (init_states m) ids = (m2, Except.ok ()) ∧
      forwardAfterSpeaker L m2 (transpose12 emb0) lens mels mask = Except.ok out := by
  unfold forward at h
  dsimp only at h
  cases hm : sequence_mask lens (chars.headD []).length with
  | error e => rw [hm] at h; injection h with h1 h2; cases h2
  | ok mask =>
    rw [hm] at h
    cases he : embedTokens (init_states m).embedding chars with
    | error e => rw [he] at h; injection h with h1 h2; cases h2
    | ok emb0 =>
      rw [he] at h
      rcases hc : compute_speaker_embedding (init_states m) ids with ⟨m1, r⟩
      rw [hc] at h
      cases r with
      | error e => injection h with h1 h2; cases h2
      | ok u =>
        injection h with h1 h2
        subst h1
        cases u
        exact ⟨mask, emb0, rfl, he, rfl, h2⟩

/-- Inversion of a successful `inference` run into its pipeline stages. -/
theorem inference_ok_inv (L : Libs) (m m2 : Tacotron2) (chars : Tokens)
    (ids : Option (List Nat)) (out : FwdCore)
    (h : inference L m chars ids = (m2, Except.ok out)) :
    ∃ emb0 enc, embedTokens m.embedding chars = Except.ok emb0 ∧
      compute_speaker_embedding (init_states m) ids = (m2, Except.ok ()) ∧
      fuseSpeaker m2 (L.encoderInference (transpose12 emb0)) = Except.ok enc ∧
      out = ⟨transpose12 (L.decoderInference m2.decoder enc).1,
             transpose12 (addT (L.decoderInference m2.decoder enc).1
               (L.postnetRun m2.postnet (L.decoderInference m2.decoder enc).1)),
             (L.decoderInference m2.decoder enc).2.1,
             (L.decoderInference m2.decoder enc).2.2⟩ := by
  unfold inference at h
  dsimp only at h
  cases he : embedTokens m.embedding chars with
  | error e => rw [he] at h; injection h with h1 h2; cases h2
  | ok emb0 =>
    rw [he] at h
    dsimp only at h
    rcases hc : compute_speaker_embedding (init_states m) ids with ⟨m1, r⟩
    rw [hc] at h
    cases r with
    | error e => injection h with h1 h2; cases h2
    | ok u =>
      cases u
      dsimp only at h
      cases hf : fuseSpeaker m1 (L.encoderInference (transpose12 emb0)) with
      | error e => rw [hf] at h; injection h with h1 h2; cases h2
      | ok enc =>
        rw [hf] at h
        dsimp only at h
        injection h with h1 h2
        subst h1
        injection h2 with h3
        exact ⟨emb0, enc, rfl, rfl, hf, h3.symm⟩

/-- Claim C5 (confirmed): in both the training path and the inference
path, the refined mel output is the raw decoder mel output plus the
postnet applied to that raw output (then shaped), never a replacement. -/
theorem postnet_residual :
    (∀ (L : Libs) (m m2 : Tacotron2) (characters : Tokens) (text_lengths : List Nat)
        (mel_specs : Tensor3) (speaker_ids : Option (List Nat)) (out : FwdOut),
      forward L m characters text_lengths mel_specs speaker_ids = (m2, Except.ok out) →
      ∃ d, out.core.mel = transpose12 d ∧
        out.core.melPost = transpose12 (addT d (L.postnetRun m.postnet d))) ∧
    (∀ (L : Libs) (m m2 : Tacotron2) (characters : Tokens)
        (speaker_ids : Option (List Nat)) (out : FwdCore),
      inference L m characters speaker_ids = (m2, Except.ok out) →
      ∃ d, out.mel = transpose12 d ∧
        out.melPost = transpose12 (addT d (L.postnetRun m.postnet d))) := by
  constructor
  · intro L m m2 characters text_lengths mel_specs speaker_ids out h
    obtain ⟨mask, emb0, hm, he, hc, hrun⟩ :=
      forward_ok_inv L m m2 characters text_lengths mel_specs speaker_ids out h
    obtain ⟨enc, hf, hcore, hback⟩ :=
      forwardAfterSpeaker_ok L m2 (transpose12 emb0) text_lengths mel_specs mask out hrun
    obtain ⟨hn, hb, hemb, hsw, hdec, hdb, hpost⟩ :=
      compute_speaker_embedding_preserves (init_states m) speaker_ids m2 (Except.ok ()) hc
    refine ⟨(L.decoderRun m2.decoder enc mel_specs mask).1, ?_, ?_⟩
    · rw [hcore]
    · rw [hcore]
      have hpm : m2.postnet = m.postnet := hpost
      rw [hpm]
  · intro L m m2 characters speaker_ids out h
    obtain ⟨emb0, enc, he, hc, hf, hout⟩ :=
      inference_ok_inv L m m2 characters speaker_ids out h
    obtain ⟨hn, hb, hemb, hsw, hdec, hdb, hpost⟩ :=
      compute_speaker_embedding_preserves (init_states m) speaker_ids m2 (Except.ok ()) hc
    refine ⟨(L.decoderInference m2.decoder enc).1, ?_, ?_⟩
    · rw [hout]
    · rw [hout]
      have hpm : m2.postnet = m.postnet := hpost
      rw [hpm]

theorem postnet_residual_witness :
    ∃ d, ((inference L0 mSingle [[1]] none).2.toOption.getD ⟨[], [], [], []⟩).mel
        = transpose12 d ∧
      ((inference L0 mSingle [[1]] none).2.toOption.getD ⟨[], [], [], []⟩).melPost
        = transpose12 (addT d (L0.postnetRun mSingle.postnet d)) := by
  have h : inference L0 mSingle [[1]] none =
      ((inference L0 mSingle [[1]] none).1,
        Except.ok ((inference L0 mSingle [[1]] none).2.toOption.getD ⟨[], [], [], []⟩)) := by
    rfl
  exact postnet_residual.2 L0 mSingle (inference L0 mSingle [[1]] none).1 [[1]] none
    ((inference L0 mSingle [[1]] none).2.toOption.getD ⟨[], [], [], []⟩) h

/-- Claim C9 (corrected): `forward` resets the cached speaker state at
call entry and `inference` resets it before any speaker embedding is
computed, so their whole behaviour (for `forward`, state and result; for
`inference`, the result) is independent of any speaker vector cached by a
previous call.  `inference_truncated` performs no such reset (see the
counterexample). -/
theorem speaker_cache_insensitive :
    (∀ (L : Libs) (m : Tacotron2) (c : Option Tensor3) (characters : Tokens)
        (text_lengths : List Nat) (mel_specs : Tensor3) (speaker_ids : Option (List Nat)),
      forward L { m with speaker_embeddings := c } characters text_lengths mel_specs speaker_ids =
        forward L { m with speaker_embeddings := none } characters text_lengths mel_specs speaker_ids) ∧
    (∀ (L : Libs) (m : Tacotron2) (c : Option Tensor3) (characters : Tokens)
        (speaker_ids : Option (List Nat)),
      (inference L { m with speaker_embeddings := c } characters speaker_ids).2 =
        (inference L { m with speaker_embeddings := none } characters speaker_ids).2) := by
  constructor
  · intro L m c characters text_lengths mel_specs speaker_ids
    cases m
    rfl
  · intro L m c characters speaker_ids
    cases m
    unfold inference
    dsimp only
    cases he : embedTokens _ characters with
    | error e => rfl
    | ok emb0 => rfl

/-- Claim C9 counterexample: a genuinely reachable stale state — the state
left by a previous (multi-speaker) `forward` call with a speaker id — still
holds its cached speaker vector after an `inference_truncated` call; had the
cache been cleared at the start of that call (as the claim states, and as no
speaker embedding is computed in it when `speaker_ids` is absent and the
call aborts), it would be `none` afterwards. -/
theorem speaker_cache_stale_after_truncated :
    ((inference_truncated L0 ((forward L0 mMulti [[1]] [1] [[[1]]] (some [0])).1)
        [[1]] none).1).speaker_embeddings ≠ none := by
  decide

/-- Claim C7 (confirmed): the backward decoder is a deep copy of the
forward decoder made at construction (an equal, separately owned parameter
value), and the four forward-path outputs of `forward` do not depend on
the backward decoder's parameters: models differing only there produce
identical forward outputs (and identical error behaviour). -/
theorem backward_params_independent :
    (∀ (num_speakers r : Nat) (w : Option Mat) (ei si : Mat) (di : DecParams)
        (pi : PostParams),
      (mkTacotron2 num_speakers r w true ei si di pi).decoder_backward =
        some (mkTacotron2 num_speakers r w true ei si di pi).decoder) ∧
    (∀ (L : Libs) (m : Tacotron2) (p1 p2 : DecParams) (characters : Tokens)
        (text_lengths : List Nat) (mel_specs : Tensor3) (speaker_ids : Option (List Nat)),
      Except.map FwdOut.core
          (forward L { m with decoder_backward := some p1 } characters text_lengths
            mel_specs speaker_ids).2 =
        Except.map FwdOut.core
          (forward L { m with decoder_backward := some p2 } characters text_lengths
            mel_specs speaker_ids).2) := by
  constructor
  · intro num_speakers r w ei si di pi
    rfl
  · intro L m p1 p2 characters text_lengths mel_specs speaker_ids
    rcases m with ⟨ns, nf, bd, emb, sw, cache, dec, db, post⟩
    unfold forward init_states compute_speaker_embedding forwardAfterSpeaker fuseSpeaker
      backward_inference
    dsimp only
    cases hm : sequence_mask text_lengths (characters.headD []).length with
    | error e => rfl
    | ok mask =>
    dsimp only
    cases he : embedTokens emb characters with
    | error e => rfl
    | ok emb0 =>
    dsimp only
    cases sw with
    | some w =>
      cases speaker_ids with
      | none => rfl
      | some ids0 =>
        dsimp only
        cases hv : compute_speaker_vectors w ids0 with
        | error e => rfl
        | ok v =>
        dsimp only
        by_cases hns : 1 < ns
        · simp only [if_pos hns]
          cases bd <;> rfl
        · simp only [if_neg hns]
          cases bd <;> rfl
    | none =>
      dsimp only
      by_cases hns : 1 < ns
      · simp only [if_pos hns]
      · simp only [if_neg hns]
        cases bd <;> rfl

/-- A successful multi-speaker fusion step is exactly the concatenation of
the cached speaker vectors onto the encoder output. -/
theorem fuseSpeaker_multi (m1 : Tacotron2) (e enc : Tensor3) (hns : 1 < m1.num_speakers)
    (h : fuseSpeaker m1 e = Except.ok enc) :
    ∃ s, m1.speaker_embeddings = some s ∧ enc = concat_speaker_embedding e s := by
  unfold fuseSpeaker at h
  rw [if_pos hns] at h
  cases hc : m1.speaker_embeddings with
  | none => rw [hc] at h; cases h
  | some s => rw [hc] at h; injection h with h1; exact ⟨s, rfl, h1.symm⟩

/-- Claim C6 (confirmed): when the bidirectional flag is set, a successful
`forward` run invokes the backward decoder (the deep-copied parameters) on
the time-reversed ground-truth mel sequence with the same fused encoder
output and the same validity mask as the forward decoder, and returns the
backward mel frames and alignments alongside the four forward outputs;
when the flag is unset, no backward pair is returned. -/
theorem bidirectional_backward_path :
    (∀ (L : Libs) (m m2 : Tacotron2) (characters : Tokens) (text_lengths : List Nat)
        (mel_specs : Tensor3) (speaker_ids : Option (List Nat)) (out : FwdOut),
      m.bidirectional_decoder = true →
      forward L m characters text_lengths mel_specs speaker_ids = (m2, Except.ok out) →
      ∃ p mask enc, m.decoder_backward = some p ∧
        sequence_mask text_lengths (characters.headD []).length = Except.ok mask ∧
        out.core.mel = transpose12 (L.decoderRun m.decoder enc mel_specs mask).1 ∧
        out.core.alignments = (L.decoderRun m.decoder enc mel_specs mask).2.1 ∧
        out.core.stop_tokens = (L.decoderRun m.decoder enc mel_specs mask).2.2 ∧
        out.backward = some (transpose12 (L.decoderRun p enc (flip1 mel_specs) mask).1,
                             (L.decoderRun p enc (flip1 mel_specs) mask).2.1)) ∧
    (∀ (L : Libs) (m m2 : Tacotron2) (characters : Tokens) (text_lengths : List Nat)
        (mel_specs : Tensor3) (speaker_ids : Option (List Nat)) (out : FwdOut),
      m.bidirectional_decoder = false →
      forward L m characters text_lengths mel_specs speaker_ids = (m2, Except.ok out) →
      out.backward = none) := by
  constructor
  · intro L m m2 characters text_lengths mel_specs speaker_ids out hbd h
    obtain ⟨mask, emb0, hm, he, hc, hrun⟩ :=
      forward_ok_inv L m m2 characters text_lengths mel_specs speaker_ids out h
    obtain ⟨enc, hf, hcore, hback⟩ :=
      forwardAfterSpeaker_ok L m2 (transpose12 emb0) text_lengths mel_specs mask out hrun
    obtain ⟨hn, hb, hemb, hsw, hdec, hdb, hpost⟩ :=
      compute_speaker_embedding_preserves (init_states m) speaker_ids m2 (Except.ok ()) hc
    have hb2 : m2.bidirectional_decoder = true := by
      rw [hb]; exact hbd
    rcases hback with ⟨hbt, p, hp, hbw⟩ | ⟨hbf, hbw⟩
    · refine ⟨p, mask, enc, ?_, hm, ?_, ?_, ?_, hbw⟩
      · exact hdb.symm.trans hp
      · rw [hcore, hdec]; rfl
      · rw [hcore, hdec]; rfl
      · rw [hcore, hdec]; rfl
    · rw [hb2] at hbf
      cases hbf
  · intro L m m2 characters text_lengths mel_specs speaker_ids out hbd h
    obtain ⟨mask, emb0, hm, he, hc, hrun⟩ :=
      forward_ok_inv L m m2 characters text_lengths mel_specs speaker_ids out h
    obtain ⟨enc, hf, hcore, hback⟩ :=
      forwardAfterSpeaker_ok L m2 (transpose12 emb0) text_lengths mel_specs mask out hrun
    obtain ⟨hn, hb, hemb, hsw, hdec, hdb, hpost⟩ :=
      compute_speaker_embedding_preserves (init_states m) speaker_ids m2 (Except.ok ()) hc
    rcases hback with ⟨hbt, p, hp, hbw⟩ | ⟨hbf, hbw⟩
    · have hbt2 : m.bidirectional_decoder = true := hb.symm.trans hbt
      rw [hbd] at hbt2
      cases hbt2
    · exact hbw

theorem bidirectional_backward_path_witness :
    mBidi.bidirectional_decoder = true ∧
      (∃ p mask enc, mBidi.decoder_backward = some p ∧
        sequence_mask [1] (([[1]] : Tokens).headD []).length = Except.ok mask ∧
        ((forward L0 mBidi [[1]] [1] [[[1]]] none).2.toOption.getD
            ⟨⟨[], [], [], []⟩, none⟩).core.mel =
          transpose12 (L0.decoderRun mBidi.decoder enc [[[1]]] mask).1 ∧
        ((forward L0 mBidi [[1]] [1] [[[1]]] none).2.toOption.getD
            ⟨⟨[], [], [], []⟩, none⟩).core.alignments =
          (L0.decoderRun mBidi.decoder enc [[[1]]] mask).2.1 ∧
        ((forward L0 mBidi [[1]] [1] [[[1]]] none).2.toOption.getD
            ⟨⟨[], [], [], []⟩, none⟩).core.stop_tokens =
          (L0.decoderRun mBidi.decoder enc [[[1]]] mask).2.2 ∧
        ((forward L0 mBidi [[1]] [1] [[[1]]] none).2.toOption.getD
            ⟨⟨[], [], [], []⟩, none⟩).backward =
          some (transpose12 (L0.decoderRun p enc (flip1 [[[1]]]) mask).1,
                (L0.decoderRun p enc (flip1 [[[1]]]) mask).2.1)) :=
  ⟨rfl, bidirectional_backward_path.1 L0 mBidi (forward L0 mBidi [[1]] [1] [[[1]]] none).1
    [[1]] [1] [[[1]]] none
    ((forward L0 mBidi [[1]] [1] [[[1]]] none).2.toOption.getD ⟨⟨[], [], [], []⟩, none⟩)
    rfl rfl⟩

/-- Claim C8 (confirmed): for a multi-speaker model both the training path
and the inference path fuse the cached speaker vectors into the encoder
output with the same fixed policy, `concat_speaker_embedding` — the
broadcast concatenation along the feature dimension described by the spec
(`specConcatFusion`) — and that policy differs from the additive fusion
`add_speaker_embedding`. -/
theorem fusion_policy_consistent :
    (∀ (L : Libs) (m m2 : Tacotron2) (characters : Tokens) (text_lengths : List Nat)
        (mel_specs : Tensor3) (speaker_ids : Option (List Nat)) (out : FwdOut),
      1 < m.num_speakers →
      forward L m characters text_lengths mel_specs speaker_ids = (m2, Except.ok out) →
      ∃ s mask emb0, m2.speaker_embeddings = some s ∧
        sequence_mask text_lengths (characters.headD []).length = Except.ok mask ∧
        embedTokens m.embedding characters = Except.ok emb0 ∧
        out.core.mel = transpose12 (L.decoderRun m.decoder
          (concat_speaker_embedding (L.encoderForward (transpose12 emb0) text_lengths) s)
          mel_specs mask).1) ∧
    (∀ (L : Libs) (m m2 : Tacotron2) (characters : Tokens) (speaker_ids : Option (List Nat))
        (out : FwdCore),
      1 < m.num_speakers →
      inference L m characters speaker_ids = (m2, Except.ok out) →
      ∃ s emb0, m2.speaker_embeddings = some s ∧
        embedTokens m.embedding characters = Except.ok emb0 ∧
        out.mel = transpose12 (L.decoderInference m.decoder
          (concat_speaker_embedding (L.encoderInference (transpose12 emb0)) s)).1) ∧
    concat_speaker_embedding = specConcatFusion ∧
    (∃ o s, concat_speaker_embedding o s ≠ add_speaker_embedding o s) := by
  refine ⟨?_, ?_, rfl, ?_⟩
  · intro L m m2 characters text_lengths mel_specs speaker_ids out hns h
    obtain ⟨mask, emb0, hm, he, hc, hrun⟩ :=
      forward_ok_inv L m m2 characters text_lengths mel_specs speaker_ids out h
    obtain ⟨enc, hf, hcore, hback⟩ :=
      forwardAfterSpeaker_ok L m2 (transpose12 emb0) text_lengths mel_specs mask out hrun
    obtain ⟨hn, hb, hemb, hsw, hdec, hdb, hpost⟩ :=
      compute_speaker_embedding_preserves (init_states m) speaker_ids m2 (Except.ok ()) hc
    have hns2 : 1 < m2.num_speakers := by rw [hn]; exact hns
    obtain ⟨s, hcache, henc⟩ :=
      fuseSpeaker_multi m2 (L.encoderForward (transpose12 emb0) text_lengths) enc hns2 hf
    refine ⟨s, mask, emb0, hcache, hm, he, ?_⟩
    rw [hcore, hdec, henc]
    rfl
  · intro L m m2 characters speaker_ids out hns h
    obtain ⟨emb0, enc, he, hc, hf, hout⟩ :=
      inference_ok_inv L m m2 characters speaker_ids out h
    obtain ⟨hn, hb, hemb, hsw, hdec, hdb, hpost⟩ :=
      compute_speaker_embedding_preserves (init_states m) speaker_ids m2 (Except.ok ()) hc
    have hns2 : 1 < m2.num_speakers := by rw [hn]; exact hns
    obtain ⟨s, hcache, henc⟩ :=
      fuseSpeaker_multi m2 (L.encoderInference (transpose12 emb0)) enc hns2 hf
    refine ⟨s, emb0, hcache, he, ?_⟩
    rw [hout, hdec, henc]
    rfl
  · refine ⟨[[[1]]], [[[2]]], fun h => ?_⟩
    have hlen := congrArg (fun t => ((t.headD []).headD []).length) h
    simp [concat_speaker_embedding, add_speaker_embedding] at hlen

theorem fusion_policy_consistent_witness :
    (1 < mMulti.num_speakers ∧
      ∃ s mask emb0,
        ((forward L0 mMulti [[1]] [1] [[[1]]] (some [0])).1).speaker_embeddings = some s ∧
        sequence_mask [1] (([[1]] : Tokens).headD []).length = Except.ok mask ∧
        embedTokens mMulti.embedding [[1]] = Except.ok emb0 ∧
        ((forward L0 mMulti [[1]] [1] [[[1]]] (some [0])).2.toOption.getD
            ⟨⟨[], [], [], []⟩, none⟩).core.mel =
          transpose12 (L0.decoderRun mMulti.decoder
            (concat_speaker_embedding (L0.encoderForward (transpose12 emb0) [1]) s)
            [[[1]]] mask).1) ∧
    (1 < mMulti.num_speakers ∧
      ∃ s emb0,
        ((inference L0 mMulti [[1]] (some [0])).1).speaker_embeddings = some s ∧
        embedTokens mMulti.embedding [[1]] = Except.ok emb0 ∧
        ((inference L0 mMulti [[1]] (some [0])).2.toOption.getD ⟨[], [], [], []⟩).mel =
          transpose12 (L0.decoderInference mMulti.decoder
            (concat_speaker_embedding (L0.encoderInference (transpose12 emb0)) s)).1) :=
  ⟨⟨by decide, fusion_policy_consistent.1 L0 mMulti
      (forward L0 mMulti [[1]] [1] [[[1]]] (some [0])).1 [[1]] [1] [[[1]]] (some [0])
      ((forward L0 mMulti [[1]] [1] [[[1]]] (some [0])).2.toOption.getD
        ⟨⟨[], [], [], []⟩, none⟩) (by decide) rfl⟩,
    ⟨by decide, fusion_policy_consistent.2.1 L0 mMulti
      (inference L0 mMulti [[1]] (some [0])).1 [[1]] (some [0])
      ((inference L0 mMulti [[1]] (some [0])).2.toOption.getD ⟨[], [], [], []⟩)
      (by decide) rfl⟩⟩

/-- With every length within the token time dimension, the mask build
succeeds. -/
theorem sequence_mask_ok (lengths : List Nat) (timeIn : Nat)
    (h : lengths.any (fun l => decide (timeIn < l)) = false) :
    sequence_mask lengths timeIn =
      Except.ok (lengths.map (fun l => (List.range timeIn).map (fun t => decide (t < l)))) := by
  unfold sequence_mask
  rw [h]
  rfl

/-- With every token id within the table, the embedding lookup succeeds. -/
theorem embedTokens_ok (w : Mat) (chars : Tokens)
    (h : chars.any (fun row => row.any (fun id => decide (w.length ≤ id))) = false) :
    embedTokens w chars = Except.ok (chars.map (fun row => row.map (embeddingLookup w))) := by
  unfold embedTokens
  rw [h]
  rfl

/-- Claim C1 counterexample: on a concrete multi-speaker construction, a
call with no speaker id does not fail with the spec's
`ConfigurationError` carrying the message "speaker embedding layer present
but no speaker id supplied" — the source raises a `RuntimeError` with a
different message. -/
theorem speaker_error_not_configuration_error :
    (inference L0 mMulti [[1]] none).2 ≠
      Except.error (PyError.configurationError
        "speaker embedding layer present but no speaker id supplied") := by
  have h : (inference L0 mMulti [[1]] none).2 =
      Except.error (PyError.runtimeError speakerErrMsg) := rfl
  rw [h]
  simp

/-- Claim C1 (corrected): for every model constructed with
`num_speakers > 1`, `forward` (under valid lengths and token ids) and
`inference` (under valid token ids) with `speaker_ids` absent fail with
the `RuntimeError` whose message is `speakerErrMsg`; for every
single-speaker construction the same calls succeed. -/
theorem speaker_id_requirement :
    (∀ (L : Libs) (ns r : Nat) (w : Option Mat) (bd : Bool) (ei si : Mat)
        (di : DecParams) (pi : PostParams) (chars : Tokens) (lens : List Nat)
        (mels : Tensor3),
      1 < ns →
      lens.any (fun l => decide ((chars.headD []).length < l)) = false →
      chars.any (fun row => row.any (fun id => decide (ei.length ≤ id))) = false →
      (forward L (mkTacotron2 ns r w bd ei si di pi) chars lens mels none).2 =
        Except.error (PyError.runtimeError speakerErrMsg)) ∧
    (∀ (L : Libs) (ns r : Nat) (w : Option Mat) (bd : Bool) (ei si : Mat)
        (di : DecParams) (pi : PostParams) (chars : Tokens),
      1 < ns →
      chars.any (fun row => row.any (fun id => decide (ei.length ≤ id))) = false →
      (inference L (mkTacotron2 ns r w bd ei si di pi) chars none).2 =
        Except.error (PyError.runtimeError speakerErrMsg)) ∧
    (∀ (L : Libs) (ns r : Nat) (w : Option Mat) (bd : Bool) (ei si : Mat)
        (di : DecParams) (pi : PostParams) (chars : Tokens) (lens : List Nat)
        (mels : Tensor3),
      ¬ 1 < ns →
      lens.any (fun l => decide ((chars.headD []).length < l)) = false →
      chars.any (fun row => row.any (fun id => decide (ei.length ≤ id))) = false →
      ∃ m2 out, forward L (mkTacotron2 ns r w bd ei si di pi) chars lens mels none =
        (m2, Except.ok out)) ∧
    (∀ (L : Libs) (ns r : Nat) (w : Option Mat) (bd : Bool) (ei si : Mat)
        (di : DecParams) (pi : PostParams) (chars : Tokens),
      ¬ 1 < ns →
      chars.any (fun row => row.any (fun id => decide (ei.length ≤ id))) = false →
      ∃ m2 out, inference L (mkTacotron2 ns r w bd ei si di pi) chars none =
        (m2, Except.ok out)) := by
  refine ⟨?_, ?_, ?_, ?_⟩
  · intro L ns r w bd ei si di pi chars lens mels hns hlen htok
    unfold forward init_states mkTacotron2 compute_speaker_embedding
    dsimp only
    rw [sequence_mask_ok _ _ hlen]
    dsimp only
    rw [embedTokens_ok _ _ htok]
    dsimp only
    simp only [if_pos hns]
  · intro L ns r w bd ei si di pi chars hns htok
    unfold inference init_states mkTacotron2 compute_speaker_embedding
    dsimp only
    rw [embedTokens_ok _ _ htok]
    dsimp only
    simp only [if_pos hns]
  · intro L ns r w bd ei si di pi chars lens mels hns hlen htok
    cases bd <;>
      · unfold forward init_states mkTacotron2 compute_speaker_embedding
          forwardAfterSpeaker fuseSpeaker backward_inference
        dsimp only
        rw [sequence_mask_ok _ _ hlen]
        dsimp only
        rw [embedTokens_ok _ _ htok]
        dsimp only
        simp only [if_neg hns]
        exact ⟨_, _, rfl⟩
  · intro L ns r w bd ei si di pi chars hns htok
    unfold inference init_states mkTacotron2 compute_speaker_embedding fuseSpeaker
    dsimp only
    rw [embedTokens_ok _ _ htok]
    dsimp only
    simp only [if_neg hns]
    exact ⟨_, _, rfl⟩

theorem speaker_id_requirement_witness :
    (forward L0 mMulti [[1]] [1] [[[1]]] none).2 =
        Except.error (PyError.runtimeError speakerErrMsg) ∧
      (inference L0 mMulti [[1]] none).2 =
        Except.error (PyError.runtimeError speakerErrMsg) ∧
      (∃ m2 out, forward L0 mSingle [[1]] [1] [[[1]]] none = (m2, Except.ok out)) ∧
      (∃ m2 out, inference L0 mSingle [[1]] none = (m2, Except.ok out)) :=
  ⟨speaker_id_requirement.1 L0 2 1 none false [[0], [1]] [[2], [3]] [0] [0]
      [[1]] [1] [[[1]]] (by decide) (by decide) (by decide),
    speaker_id_requirement.2.1 L0 2 1 none false [[0], [1]] [[2], [3]] [0] [0]
      [[1]] (by decide) (by decide),
    speaker_id_requirement.2.2.1 L0 1 1 none false [[0], [1]] [[2], [3]] [0] [0]
      [[1]] [1] [[[1]]] (by decide) (by decide) (by decide),
    speaker_id_requirement.2.2.2 L0 1 1 none false [[0], [1]] [[2], [3]] [0] [0]
      [[1]] (by decide) (by decide)⟩

/-- The token embedding table of the concrete Claim C3 counterexample
model: a valid `uniform_` sample for `num_chars = 2` whose row 0 is
nonzero. -/
def embInitC3 : Mat := [List.replicate 512 ((1 : ℚ)/10), List.replicate 512 0]

/-- Claim C3 counterexample: a model constructed from a valid uniform
sample (entries satisfy the `sqrt(6/(num_chars+512))` bound) for which the
lookup of padding token id 0 is not the zero row: the blanket
`uniform_(-val, val)` re-initialisation overwrites the zero row that
`padding_idx=0` had created. -/
theorem padding_row_not_zero :
    uniformInitValid 2 embInitC3 ∧
      embeddingLookup (mkTacotron2 1 1 none false embInitC3 [] [] []).embedding 0 ≠
        List.replicate 512 (0 : ℚ) := by
  constructor
  · refine ⟨rfl, ?_⟩
    intro row hrow
    have hrow2 : row ∈ [List.replicate 512 ((1 : ℚ)/10), List.replicate 512 0] := hrow
    simp only [List.mem_cons, List.not_mem_nil, or_false] at hrow2
    rcases hrow2 with hr | hr <;> subst hr <;>
      refine ⟨List.length_replicate 512 _, fun x hx => ?_⟩ <;>
      rw [List.eq_of_mem_replicate hx] <;> norm_num
  · intro h
    have h1 : ((1 : ℚ)/10) = 0 := congrArg (fun r => r.headD 0) h
    norm_num at h1

/-- Claim C3 (corrected): after construction the embedding table is
exactly the `uniform_` sample — the lookup of padding id 0 returns the
sample's row 0 (not necessarily zero; `padding_idx=0` only suppresses
gradient updates of that row, while the in-place `uniform_` overwrite
replaced its zero initial value). -/
theorem padding_row_is_sample_row (ns r : Nat) (w : Option Mat) (bd : Bool)
    (ei si : Mat) (di : DecParams) (pi : PostParams) :
    (mkTacotron2 ns r w bd ei si di pi).embedding = ei ∧
      embeddingLookup (mkTacotron2 ns r w bd ei si di pi).embedding 0 = ei.getD 0 [] :=
  ⟨rfl, rfl⟩

end TTS
